import Mathlib

/-!
# SecurePDFViewer: the protected viewing session

A shallow embedding of `src/SecurePDFViewer.js`, a single React function
component.  The component's `useState` cells and the parts of the browser it
talks to (the listeners registered on `document`, the pending `setTimeout`
callbacks, the pending `FileReader` reads, the fullscreen element) are the
fields of one record, `World`.  Every handler of the component is a function
`World → World`.

Modelling conventions:

* Time is a natural number of milliseconds.  A `setTimeout(cb, 3000)` issued at
  time `now` is due at `now + 3000` and fires when the clock reaches that time.
  Every timeout callback of the component is `() => setMessage('')`, so a
  pending timeout is represented by its due time alone.
* A listener closure is identified by a number, fresh for every run of the
  effect that creates it (`addEventListener`/`removeEventListener` compare
  function identity).
* One event is one handler run together with the re-render it causes.  The
  protection effect is a passive `useEffect`: after a render that changed
  `pdfData` it is only pending, and it runs (cleanup of the previous run first)
  at a later event of its own, `Event.effects`.  React may run it right after
  the render or in a later task (as it does after an update that comes from a
  `FileReader` callback), and at the latest before the next render; other
  events may arrive in between.  The model leaves the moment free, so every
  schedule React can choose is one of its event sequences.
* A state setter called after the component was unmounted does nothing.
-/

namespace SecurePDFViewer

/-- The part of a browser `File` the component looks at: its name, its declared
MIME type, and its contents in base64 text (what `readAsDataURL` puts after the
comma). -/
structure File where
  name : String
  type : String
  body : String
  deriving DecidableEq

/-- A `keydown` event: the fields `preventSave` reads, and whether
`preventDefault()` was called on it. -/
structure KeyEvent where
  key : String
  ctrlKey : Bool
  metaKey : Bool
  defaultPrevented : Bool
  deriving DecidableEq

/-- The component's state cells (lines 5-11) and the browser state it acts on. -/
structure World where
  -- `useState` cells
  pdfFile : Option File
  pdfData : Option String
  watermarkText : String
  showControls : Bool
  isFullscreen : Bool
  message : String
  showTutorial : Bool
  -- component lifetime
  mounted : Bool
  -- clock and pending `setTimeout(() => setMessage(''), _)` callbacks (due times)
  now : Nat
  timers : List Nat
  -- pending `FileReader`s, oldest first, each with the file it is reading
  reads : List File
  -- listeners registered on `document`, by closure identity
  contextmenu : List Nat
  keydown : List Nat
  fullscreenchange : List Nat
  -- cleanup closure returned by the last run of the protection effect
  cleanup : Option (Nat × Nat)
  -- dependency value (`pdfData`) the protection effect last ran with
  effectDeps : Option String
  -- listener registered by the fullscreen effect, while mounted
  fullscreenCleanup : Option Nat
  nextId : Nat
  -- `document.fullscreenElement` is non-null
  fullscreenElement : Bool
  -- `requestFullscreen()` promises not yet settled
  fullscreenRequests : Nat
  -- number of `document.exitFullscreen()` calls issued
  fullscreenExits : Nat
  deriving DecidableEq

/-- JavaScript truthiness of a `string | null` value: `null` and `''` are falsy. -/
def truthy : Option String → Bool
  | none => false
  | some s => s != ""

/-- The declared-type test of line 17: `file && file.type === 'application/pdf'`. -/
def isPdf : Option File → Bool
  | none => false
  | some f => f.type == "application/pdf"

/-- The result of `reader.readAsDataURL(file)`: a `data:` URL of the file. -/
def readAsDataURL (f : File) : String :=
  "data:" ++ f.type ++ ";base64," ++ f.body

/-! ## State setters -/

def setPdfFile (v : Option File) (w : World) : World :=
  if w.mounted then { w with pdfFile := v } else w

def setPdfData (v : Option String) (w : World) : World :=
  if w.mounted then { w with pdfData := v } else w

def setWatermarkText (v : String) (w : World) : World :=
  if w.mounted then { w with watermarkText := v } else w

def setShowControls (v : Bool) (w : World) : World :=
  if w.mounted then { w with showControls := v } else w

def setIsFullscreen (v : Bool) (w : World) : World :=
  if w.mounted then { w with isFullscreen := v } else w

def setMessage (v : String) (w : World) : World :=
  if w.mounted then { w with message := v } else w

def setShowTutorial (v : Bool) (w : World) : World :=
  if w.mounted then { w with showTutorial := v } else w

/-- The call `setTimeout(() => setMessage(''), delay)`: one more pending
callback, due `delay` ms from now.  No handle is kept and `clearTimeout` is
never called in the source. -/
def setTimeout (delay : Nat) (w : World) : World :=
  { w with timers := w.timers ++ [w.now + delay] }

/-! ## Handlers -/

/-- The body of `reader.onload` (lines 20-24), for a reader whose result is `result`. -/
def onload (result : String) (w : World) : World :=
  setTimeout 3000 (setMessage "PDF loaded successfully" (setPdfData (some result) w))

/-- The handler `handleFileUpload` (lines 15-32), with `file = e.target.files[0]`. -/
def handleFileUpload (file : Option File) (w : World) : World :=
  match file with
  | some f =>
    if f.type == "application/pdf" then
      let w1 := setPdfFile (some f) w
      { w1 with reads := w1.reads ++ [f] }
    else
      setTimeout 3000 (setMessage "Please select a valid PDF file"
        (setPdfData none (setPdfFile none w)))
  | none =>
    setTimeout 3000 (setMessage "Please select a valid PDF file"
      (setPdfData none (setPdfFile none w)))

/-- The listener `preventContextMenu` (line 38): `e.preventDefault()`, whatever
the event's `defaultPrevented` was; no state is touched. -/
def preventContextMenu (_defaultPrevented : Bool) (w : World) : Bool × World :=
  (true, w)

/-- The listener `preventSave` (lines 39-52): the event after the listener ran,
and the world. -/
def preventSave (e : KeyEvent) (w : World) : KeyEvent × World :=
  let r1 : KeyEvent × World :=
    if (e.key == "s" || e.key == "S") && (e.ctrlKey || e.metaKey) then
      ({ e with defaultPrevented := true },
        setTimeout 3000 (setMessage "Saving is disabled for security reasons" w))
    else (e, w)
  if r1.1.key == "PrintScreen" then
    ({ r1.1 with defaultPrevented := true },
      setTimeout 3000 (setMessage "Screenshots are disabled for security reasons" r1.2))
  else r1

/-- The listener `fullscreenChange` (lines 68-70). -/
def fullscreenChange (w : World) : World :=
  setIsFullscreen w.fullscreenElement w

/-- The rejection callback of `requestFullscreen()` (lines 79-82), `err.message = err`. -/
def onFullscreenRejected (err : String) (w : World) : World :=
  setTimeout 3000 (setMessage ("Error attempting to enable fullscreen: " ++ err) w)

/-- The handler `toggleFullscreen` (lines 77-86).  It issues a request or an
exit to the environment; the container `div` the ref points to is rendered in
every state. -/
def toggleFullscreen (w : World) : World :=
  if !w.fullscreenElement then
    { w with fullscreenRequests := w.fullscreenRequests + 1 }
  else
    { w with fullscreenExits := w.fullscreenExits + 1 }

/-! ## Effects -/

/-- The cleanup closure of the protection effect (lines 60-63). -/
def runCleanup (w : World) : World :=
  match w.cleanup with
  | none => w
  | some (c, k) =>
    { w with contextmenu := w.contextmenu.erase c,
             keydown := w.keydown.erase k,
             cleanup := none }

/-- The body of the protection effect (lines 35-64), run with the current `pdfData`. -/
def runProtectionEffect (w : World) : World :=
  if !truthy w.pdfData then
    { w with cleanup := none, effectDeps := w.pdfData }
  else
    { w with contextmenu := w.contextmenu ++ [w.nextId],
             keydown := w.keydown ++ [w.nextId + 1],
             cleanup := some (w.nextId, w.nextId + 1),
             nextId := w.nextId + 2,
             effectDeps := w.pdfData }

/-- The body of the fullscreen effect (lines 67-74), dependency list `[]`. -/
def runFullscreenEffect (w : World) : World :=
  { w with fullscreenchange := w.fullscreenchange ++ [w.nextId],
           fullscreenCleanup := some w.nextId,
           nextId := w.nextId + 1 }

/-- React runs the pending passive effects: the protection effect is re-run
(cleanup first) when its dependency `pdfData` differs from the value it last
ran with. -/
def commit (w : World) : World :=
  if w.mounted && w.effectDeps != w.pdfData then
    runProtectionEffect (runCleanup w)
  else w

/-- The component before its first render: the initial values of lines 5-11. -/
def initial : World :=
  { pdfFile := none, pdfData := none, watermarkText := "CONFIDENTIAL",
    showControls := true, isFullscreen := false, message := "",
    showTutorial := true, mounted := true, now := 0, timers := [], reads := [],
    contextmenu := [], keydown := [], fullscreenchange := [], cleanup := none,
    effectDeps := none, fullscreenCleanup := none, nextId := 0,
    fullscreenElement := false, fullscreenRequests := 0, fullscreenExits := 0 }

/-- The mounted component: first render, then both effects in source order. -/
def mount : World :=
  runFullscreenEffect (runProtectionEffect initial)

/-- Unmounting: both effects' cleanups run, and the state cells are dead. -/
def unmount (w : World) : World :=
  if w.mounted then
    let w1 := runCleanup w
    let w2 : World :=
      match w1.fullscreenCleanup with
      | none => w1
      | some i => { w1 with fullscreenchange := w1.fullscreenchange.erase i,
                            fullscreenCleanup := none }
    { w2 with mounted := false }
  else w

/-! ## Event dispatch by the browser -/

/-- A `keydown` event reaches every listener registered for it, in order.  All
of them are `preventSave` closures. -/
def dispatchKeydown (e : KeyEvent) (w : World) : KeyEvent × World :=
  w.keydown.foldl (fun acc _ => preventSave acc.1 acc.2) (e, w)

/-- A `contextmenu` event reaches every listener registered for it; the result
says whether the default action (opening the menu) was prevented. -/
def dispatchContextmenu (w : World) : Bool × World :=
  w.contextmenu.foldl (fun acc _ => preventContextMenu acc.1 acc.2) (false, w)

/-- A `fullscreenchange` notification reaches every listener registered for it. -/
def dispatchFullscreenchange (w : World) : World :=
  w.fullscreenchange.foldl (fun acc _ => fullscreenChange acc) w

/-- The clock moves on by `d` ms: every pending timeout that is due by then
fires (each one runs `setMessage('')`) and is gone. -/
def advance (d : Nat) (w : World) : World :=
  let t := w.now + d
  let due := w.timers.filter (fun x => decide (x ≤ t))
  let w1 : World := { w with now := t, timers := w.timers.filter (fun x => decide (t < x)) }
  due.foldl (fun acc _ => setMessage "" acc) w1

/-- The `i`-th pending read completes: its `onload` runs with the data URL. -/
def readLoad (i : Nat) (w : World) : World :=
  match w.reads.get? i with
  | none => w
  | some f => onload (readAsDataURL f) { w with reads := w.reads.eraseIdx i }

/-- The `i`-th pending read fails.  The reader has no `onerror` (nor `onabort`,
`onloadend`) handler, so no code of the component runs. -/
def readError (i : Nat) (w : World) : World :=
  match w.reads.get? i with
  | none => w
  | some _ => { w with reads := w.reads.eraseIdx i }

/-! ## Rendering (lines 88-232), the parts the properties are about -/

/-- The fullscreen button (lines 143-149). -/
structure Button where
  disabled : Bool
  label : String
  deriving DecidableEq

/-- The two layers drawn over the document (lines 172-184). -/
structure Overlay where
  watermarkLayer : String
  antiScreenshotBackground : String
  deriving DecidableEq

/-- The `background` style of the anti-screenshot layer (line 182).  In the
source the whole value is ONE single-quoted JavaScript string literal: the
double quotes around `+ watermarkText +` are characters of that literal, so no
concatenation takes place. -/
def antiScreenshotBackground (_watermarkText : String) : String :=
  "url(\"data:image/svg+xml,%3Csvg xmlns='http://www.w3.org/2000/svg' width='100' height='100' viewBox='0 0 100 100'%3E%3Ctext x='50%25' y='50%25' font-size='12' text-anchor='middle' dy='.3em' fill='rgba(150,150,150,0.05)'%3E\" + watermarkText + \"%3C/text%3E%3C/svg%3E\")"

/-- The overlay, rendered only in the `pdfData ? ... : ...` branch of line 163. -/
def overlay (w : World) : Option Overlay :=
  if truthy w.pdfData then
    some { watermarkLayer := w.watermarkText,
           antiScreenshotBackground := antiScreenshotBackground w.watermarkText }
  else none

/-- The fullscreen button, rendered inside the controls panel (`showControls &&`). -/
def fullscreenButton (w : World) : Option Button :=
  if w.showControls then
    some { disabled := !truthy w.pdfData,
           label := if w.isFullscreen then "Exit Fullscreen" else "Enter Fullscreen" }
  else none

/-- The status box (lines 226-230), rendered when `message` is truthy. -/
def statusMessage (w : World) : Option String :=
  if w.message != "" then some w.message else none

/-- A click on the fullscreen button: a disabled or absent button runs no handler. -/
def clickFullscreen (w : World) : World :=
  match fullscreenButton w with
  | none => w
  | some b => if b.disabled then w else toggleFullscreen w

/-! ## The event loop -/

/-- What can happen to the viewer: user input, completions reported by the
browser, the passing of time, and React running the pending effects. -/
inductive Event where
  | selectFile (file : Option File)
  | readLoad (i : Nat)
  | readError (i : Nat)
  | keydown (e : KeyEvent)
  | contextmenu
  | editWatermark (text : String)
  | toggleControls
  | dismissTutorial
  | clickFullscreen
  | fullscreenGranted
  | fullscreenRejected (err : String)
  | fullscreenLeft
  | fullscreenchange
  | advance (d : Nat)
  | effects
  | unmount

/-- What one event does: the handler that runs and the re-render, or, for
`effects`, the run of the pending effect.  A control that is not rendered (or a
component that is unmounted) receives no user input. -/
def handle (w : World) : Event → World
  | .selectFile file =>
    if w.mounted && w.showControls then handleFileUpload file w else w
  | .readLoad i => readLoad i w
  | .readError i => readError i w
  | .keydown e => (dispatchKeydown e w).2
  | .contextmenu => (dispatchContextmenu w).2
  | .editWatermark text =>
    if w.mounted && w.showControls then setWatermarkText text w else w
  | .toggleControls =>
    if w.mounted && truthy w.pdfData then setShowControls (!w.showControls) w else w
  | .dismissTutorial =>
    if w.mounted && !truthy w.pdfData && w.showTutorial then setShowTutorial false w else w
  | .clickFullscreen => if w.mounted then clickFullscreen w else w
  | .fullscreenGranted =>
    if 0 < w.fullscreenRequests then
      { w with fullscreenRequests := w.fullscreenRequests - 1, fullscreenElement := true }
    else w
  | .fullscreenRejected err =>
    if 0 < w.fullscreenRequests then
      onFullscreenRejected err { w with fullscreenRequests := w.fullscreenRequests - 1 }
    else w
  | .fullscreenLeft => { w with fullscreenElement := false }
  | .fullscreenchange => dispatchFullscreenchange w
  | .advance d => advance d w
  | .effects => commit w
  | .unmount => unmount w

/-- One event: its handler and the re-render.  An effect that the render left
pending is not run here; it runs at a later `Event.effects`. -/
def step (w : World) (e : Event) : World :=
  handle w e

/-- The world after a sequence of events, starting from the freshly mounted viewer. -/
def run (events : List Event) : World :=
  events.foldl step mount

/-! ## The emissions of a status message -/

/-- The places of the component that set a status message and schedule its
clearing: the `else` branch of `handleFileUpload` (lines 29-30), `reader.onload`
(lines 22-23), `preventSave` (lines 42-43 and 49-50) and the rejection callback
of `requestFullscreen()` (lines 80-81). -/
inductive Emission where
  | invalidFile (file : Option File)
  | loaded (file : File)
  | key (e : KeyEvent)
  | fullscreenRejected (err : String)

/-- Whether the place is reached: the file fails the type test, the key event
is one of the two kinds `preventSave` reacts to. -/
def Emission.enabled : Emission → Bool
  | .invalidFile file => !isPdf file
  | .loaded _ => true
  | .key e =>
    ((e.key == "s" || e.key == "S") && (e.ctrlKey || e.metaKey)) || e.key == "PrintScreen"
  | .fullscreenRejected _ => true

/-- The code that runs at the place. -/
def Emission.perform : Emission → World → World
  | .invalidFile file, w => handleFileUpload file w
  | .loaded file, w => onload (readAsDataURL file) w
  | .key e, w => (preventSave e w).2
  | .fullscreenRejected err, w => onFullscreenRejected err w

/-- The message text set at the place. -/
def Emission.text : Emission → String
  | .invalidFile _ => "Please select a valid PDF file"
  | .loaded _ => "PDF loaded successfully"
  | .key e =>
    if e.key == "PrintScreen" then "Screenshots are disabled for security reasons"
    else "Saving is disabled for security reasons"
  | .fullscreenRejected err => "Error attempting to enable fullscreen: " ++ err

/-! ## Sample inputs -/

def samplePdf : File :=
  { name := "report.pdf", type := "application/pdf", body := "JVBERi0=" }

def otherPdf : File :=
  { name := "other.pdf", type := "application/pdf", body := "JVBERi0xLjQ=" }

def sampleText : File :=
  { name := "notes.txt", type := "text/plain", body := "aGk=" }

def ctrlS : KeyEvent :=
  { key := "s", ctrlKey := true, metaKey := false, defaultPrevented := false }

def printScreenKey : KeyEvent :=
  { key := "PrintScreen", ctrlKey := false, metaKey := false, defaultPrevented := false }

end SecurePDFViewer

namespace SecurePDFViewer

/-! ## Auxiliary facts -/

/-- The protection fields of `w2` are those of `w1`, and `pdfData` is either
unchanged, or (in a mounted component) `null` or a truthy string. -/
def Framed (w1 w2 : World) : Prop :=
  w2.contextmenu = w1.contextmenu ∧ w2.keydown = w1.keydown ∧ w2.cleanup = w1.cleanup ∧
  w2.effectDeps = w1.effectDeps ∧ w2.mounted = w1.mounted ∧
  w2.fullscreenchange = w1.fullscreenchange ∧
  (w2.pdfData = w1.pdfData ∨
    (w1.mounted = true ∧ (w2.pdfData = none ∨ truthy w2.pdfData = true)))

/-- What holds in every reachable state: `pdfData` and the value the protection
effect last ran with are `null` or truthy; the listeners registered are exactly
those of that last run; the listener of the fullscreen effect is registered
while the component is mounted. -/
def Inv (w : World) : Prop :=
  (w.mounted = true → w.fullscreenchange ≠ []) ∧
  (w.pdfData = none ∨ truthy w.pdfData = true) ∧
  (w.effectDeps = none ∨ truthy w.effectDeps = true) ∧
  ((w.mounted = true ∧ truthy w.effectDeps = true ∧
      ∃ c k, w.cleanup = some (c, k) ∧ w.contextmenu = [c] ∧ w.keydown = [k]) ∨
   ((w.mounted = false ∨ w.effectDeps = none) ∧
      w.cleanup = none ∧ w.contextmenu = [] ∧ w.keydown = []))

theorem Framed.refl (w : World) : Framed w w :=
  ⟨rfl, rfl, rfl, rfl, rfl, rfl, Or.inl rfl⟩

theorem Framed.trans {w1 w2 w3 : World} (h12 : Framed w1 w2) (h23 : Framed w2 w3) :
    Framed w1 w3 := by
  obtain ⟨a1, a2, a3, a4, a5, a7, a6⟩ := h12
  obtain ⟨b1, b2, b3, b4, b5, b7, b6⟩ := h23
  refine ⟨b1.trans a1, b2.trans a2, b3.trans a3, b4.trans a4, b5.trans a5, b7.trans a7, ?_⟩
  rcases b6 with h | ⟨hm, h⟩
  · rw [h]; exact a6
  · exact Or.inr ⟨a5 ▸ hm, h⟩

theorem foldl_framed {β : Type} (f : World → β → World)
    (hf : ∀ w b, Framed w (f w b)) (l : List β) (w : World) :
    Framed w (l.foldl f w) := by
  induction l generalizing w with
  | nil => exact Framed.refl w
  | cons b l ih => exact (hf w b).trans (ih (f w b))

theorem readAsDataURL_truthy (f : File) : truthy (some (readAsDataURL f)) = true := by
  have h : (readAsDataURL f).length ≠ 0 := by
    have h5 : "data:".length = 5 := by decide
    simp only [readAsDataURL, String.length_append, h5]
    omega
  simp only [truthy, bne_iff_ne, ne_eq]
  intro h0
  rw [h0] at h
  exact h rfl

theorem setMessage_framed (m : String) (w : World) : Framed w (setMessage m w) := by
  unfold setMessage; split <;> exact ⟨rfl, rfl, rfl, rfl, rfl, rfl, Or.inl rfl⟩

theorem setTimeout_framed (d : Nat) (w : World) : Framed w (setTimeout d w) :=
  ⟨rfl, rfl, rfl, rfl, rfl, rfl, Or.inl rfl⟩

theorem setPdfFile_framed (v : Option File) (w : World) : Framed w (setPdfFile v w) := by
  unfold setPdfFile; split <;> exact ⟨rfl, rfl, rfl, rfl, rfl, rfl, Or.inl rfl⟩

theorem setPdfData_framed (v : Option String) (hv : v = none ∨ truthy v = true) (w : World) :
    Framed w (setPdfData v w) := by
  unfold setPdfData; split
  · next hm => exact ⟨rfl, rfl, rfl, rfl, rfl, rfl, Or.inr ⟨hm, hv⟩⟩
  · exact Framed.refl w

theorem emit_framed (m : String) (w : World) : Framed w (setTimeout 3000 (setMessage m w)) :=
  (setMessage_framed m w).trans (setTimeout_framed 3000 _)

theorem preventSave_framed (e : KeyEvent) (w : World) : Framed w (preventSave e w).2 := by
  unfold preventSave
  dsimp only
  split <;> split <;> first
    | exact Framed.refl w
    | exact emit_framed _ w
    | exact (emit_framed _ w).trans (emit_framed _ _)

theorem onload_framed (f : File) (w : World) : Framed w (onload (readAsDataURL f) w) :=
  (setPdfData_framed _ (Or.inr (readAsDataURL_truthy f)) w).trans (emit_framed _ _)

theorem invalid_framed (w : World) :
    Framed w (setTimeout 3000 (setMessage "Please select a valid PDF file"
      (setPdfData none (setPdfFile none w)))) :=
  ((setPdfFile_framed none w).trans (setPdfData_framed none (Or.inl rfl) _)).trans
    (emit_framed _ _)

theorem handleFileUpload_framed (file : Option File) (w : World) :
    Framed w (handleFileUpload file w) := by
  unfold handleFileUpload
  split
  · split
    · exact (setPdfFile_framed _ w).trans ⟨rfl, rfl, rfl, rfl, rfl, rfl, Or.inl rfl⟩
    · exact invalid_framed w
  · exact invalid_framed w

theorem advance_framed (d : Nat) (w : World) : Framed w (advance d w) := by
  unfold advance
  dsimp only
  exact Framed.trans ⟨rfl, rfl, rfl, rfl, rfl, rfl, Or.inl rfl⟩
    (foldl_framed _ (fun w _ => setMessage_framed "" w) _ _)

theorem dispatchKeydown_framed (e : KeyEvent) (w : World) :
    Framed w (dispatchKeydown e w).2 := by
  unfold dispatchKeydown
  generalize w.keydown = l
  induction l generalizing e w with
  | nil => exact Framed.refl w
  | cons b l ih =>
    rw [List.foldl_cons]
    exact (preventSave_framed e w).trans (ih _ _)

theorem dispatchContextmenu_snd (w : World) : (dispatchContextmenu w).2 = w := by
  unfold dispatchContextmenu
  generalize w.contextmenu = l
  generalize false = b
  induction l generalizing b with
  | nil => rfl
  | cons a l ih => rw [List.foldl_cons]; exact ih _

theorem handle_framed (w : World) (e : Event) (he : e ≠ Event.unmount)
    (hf : e ≠ Event.effects) : Framed w (handle w e) := by
  cases e with
  | selectFile file =>
    simp only [handle]; split
    · exact handleFileUpload_framed file w
    · exact Framed.refl w
  | readLoad i =>
    simp only [handle, readLoad]; split
    · exact Framed.refl w
    · exact Framed.trans ⟨rfl, rfl, rfl, rfl, rfl, rfl, Or.inl rfl⟩ (onload_framed _ _)
  | readError i =>
    simp only [handle, readError]; split
    · exact Framed.refl w
    · exact ⟨rfl, rfl, rfl, rfl, rfl, rfl, Or.inl rfl⟩
  | keydown e => exact dispatchKeydown_framed e w
  | contextmenu => simp only [handle, dispatchContextmenu_snd]; exact Framed.refl w
  | editWatermark text =>
    simp only [handle, setWatermarkText]; split <;> try split
    all_goals exact ⟨rfl, rfl, rfl, rfl, rfl, rfl, Or.inl rfl⟩
  | toggleControls =>
    simp only [handle, setShowControls]; split <;> try split
    all_goals exact ⟨rfl, rfl, rfl, rfl, rfl, rfl, Or.inl rfl⟩
  | dismissTutorial =>
    simp only [handle, setShowTutorial]; split <;> try split
    all_goals exact ⟨rfl, rfl, rfl, rfl, rfl, rfl, Or.inl rfl⟩
  | clickFullscreen =>
    simp only [handle, clickFullscreen, toggleFullscreen]
    repeat' split
    all_goals exact ⟨rfl, rfl, rfl, rfl, rfl, rfl, Or.inl rfl⟩
  | fullscreenGranted =>
    simp only [handle]; split
    all_goals exact ⟨rfl, rfl, rfl, rfl, rfl, rfl, Or.inl rfl⟩
  | fullscreenRejected err =>
    simp only [handle, onFullscreenRejected]; split
    · exact Framed.trans ⟨rfl, rfl, rfl, rfl, rfl, rfl, Or.inl rfl⟩ (emit_framed _ _)
    · exact Framed.refl w
  | fullscreenLeft => exact ⟨rfl, rfl, rfl, rfl, rfl, rfl, Or.inl rfl⟩
  | fullscreenchange =>
    simp only [handle, dispatchFullscreenchange]
    refine foldl_framed _ (fun w _ => ?_) _ _
    unfold fullscreenChange setIsFullscreen
    split <;> exact ⟨rfl, rfl, rfl, rfl, rfl, rfl, Or.inl rfl⟩
  | advance d => exact advance_framed d w
  | effects => exact absurd rfl hf
  | unmount => exact absurd rfl he

theorem runCleanup_fields (w : World) :
    (runCleanup w).pdfData = w.pdfData ∧ (runCleanup w).mounted = w.mounted ∧
    (runCleanup w).cleanup = none ∧
    (runCleanup w).fullscreenchange = w.fullscreenchange := by
  unfold runCleanup
  split
  · next h => exact ⟨rfl, rfl, h, rfl⟩
  · exact ⟨rfl, rfl, rfl, rfl⟩

theorem runCleanup_listeners (w : World)
    (h : (∃ c k, w.cleanup = some (c, k) ∧ w.contextmenu = [c] ∧ w.keydown = [k]) ∨
      (w.cleanup = none ∧ w.contextmenu = [] ∧ w.keydown = [])) :
    (runCleanup w).contextmenu = [] ∧ (runCleanup w).keydown = [] := by
  unfold runCleanup
  rcases h with ⟨c, k, hc, hcm, hkd⟩ | ⟨hc, hcm, hkd⟩
  · rw [hc]; simp [hcm, hkd]
  · rw [hc]; exact ⟨hcm, hkd⟩

theorem runCleanup_effectDeps (w : World) : (runCleanup w).effectDeps = w.effectDeps := by
  unfold runCleanup; split <;> rfl

theorem runProtectionEffect_inv (w : World) (hm : w.mounted = true)
    (hdata : w.pdfData = none ∨ truthy w.pdfData = true)
    (hcm : w.contextmenu = []) (hkd : w.keydown = []) (hfs : w.fullscreenchange ≠ []) :
    Inv (runProtectionEffect w) ∧
    (runProtectionEffect w).effectDeps = (runProtectionEffect w).pdfData := by
  unfold runProtectionEffect
  rcases hdata with h | h
  · have ht : truthy w.pdfData = false := by rw [h]; rfl
    simp only [ht, Bool.not_false, if_true]
    exact ⟨⟨fun _ => hfs, Or.inl h, Or.inl h, Or.inr ⟨Or.inr h, rfl, hcm, hkd⟩⟩, trivial⟩
  · simp only [h, Bool.not_true, Bool.false_eq_true, if_false]
    refine ⟨⟨fun _ => hfs, Or.inr h, Or.inr h,
      Or.inl ⟨hm, h, w.nextId, w.nextId + 1, rfl, ?_, ?_⟩⟩, trivial⟩
    · simp [hcm]
    · simp [hkd]

theorem Inv.listeners {w : World} (h : Inv w) :
    (∃ c k, w.cleanup = some (c, k) ∧ w.contextmenu = [c] ∧ w.keydown = [k]) ∨
      (w.cleanup = none ∧ w.contextmenu = [] ∧ w.keydown = []) := by
  rcases h.2.2.2 with ⟨_, _, h⟩ | ⟨_, h⟩
  · exact Or.inl h
  · exact Or.inr h

/-- A handler that left the protection fields alone keeps the invariant. -/
theorem framed_inv (w1 w2 : World) (h1 : Inv w1) (hf : Framed w1 w2) : Inv w2 := by
  obtain ⟨hfs, hdata, hdeps, hprot⟩ := h1
  obtain ⟨fc, fk, fcl, fd, fm, ff, fp⟩ := hf
  refine ⟨by rw [fm, ff]; exact hfs, ?_, by rw [fd]; exact hdeps, ?_⟩
  · rcases fp with h | ⟨_, h⟩
    · rw [h]; exact hdata
    · exact h
  · rw [fc, fk, fcl, fm, fd]; exact hprot

/-- The run of the pending effects keeps the invariant, and in a mounted
component leaves no effect pending. -/
theorem commit_inv (w : World) (h : Inv w) :
    Inv (commit w) ∧ (w.mounted = true → (commit w).effectDeps = (commit w).pdfData) ∧
    (commit w).mounted = w.mounted ∧ (commit w).pdfData = w.pdfData := by
  have hlist := h.listeners
  obtain ⟨hfs, hdata, hdeps, hprot⟩ := h
  unfold commit
  by_cases hc : (w.mounted && w.effectDeps != w.pdfData) = true
  · rw [if_pos hc]
    have hm : w.mounted = true := by
      simp only [Bool.and_eq_true] at hc; exact hc.1
    obtain ⟨c1, c2, _, c6⟩ := runCleanup_fields w
    obtain ⟨c3, c4⟩ := runCleanup_listeners w hlist
    obtain ⟨i1, i2⟩ := runProtectionEffect_inv _ (c2.trans hm) (c1 ▸ hdata) c3 c4
      (by rw [c6]; exact hfs hm)
    refine ⟨i1, fun _ => i2, ?_, ?_⟩
    · rw [← c2]; unfold runProtectionEffect; split <;> rfl
    · rw [← c1]; unfold runProtectionEffect; split <;> rfl
  · rw [if_neg hc]
    refine ⟨⟨hfs, hdata, hdeps, hprot⟩, ?_, rfl, rfl⟩
    intro hm
    simp only [hm, Bool.true_and, bne_iff_ne, ne_eq, not_not] at hc
    exact hc

theorem unmount_inv (w : World) (h : Inv w) : Inv (unmount w) := by
  have hlist := h.listeners
  obtain ⟨hfs, hdata, hdeps, hprot⟩ := h
  by_cases hm : w.mounted = true
  · obtain ⟨c1, c2, c5, _⟩ := runCleanup_fields w
    obtain ⟨c3, c4⟩ := runCleanup_listeners w hlist
    have c6 := runCleanup_effectDeps w
    have hu : (unmount w).mounted = false ∧ (unmount w).pdfData = w.pdfData ∧
        (unmount w).effectDeps = w.effectDeps ∧ (unmount w).cleanup = none ∧
        (unmount w).contextmenu = [] ∧ (unmount w).keydown = [] := by
      unfold unmount
      rw [if_pos hm]
      dsimp only
      split <;> exact ⟨rfl, c1, c6, c5, c3, c4⟩
    obtain ⟨u1, u2, u3, u4, u5, u6⟩ := hu
    exact ⟨fun h => absurd (u1 ▸ h) (by decide), by rw [u2]; exact hdata,
      by rw [u3]; exact hdeps, Or.inr ⟨Or.inl u1, u4, u5, u6⟩⟩
  · have hu : unmount w = w := by unfold unmount; simp [hm]
    rw [hu]
    exact ⟨hfs, hdata, hdeps, hprot⟩

theorem mount_inv : Inv mount := by
  refine ⟨fun _ => by decide, Or.inl rfl, Or.inl rfl, Or.inr ⟨Or.inr rfl, rfl, rfl, rfl⟩⟩

theorem step_inv (w : World) (e : Event) (h : Inv w) : Inv (step w e) := by
  unfold step
  by_cases he : e = Event.unmount
  · subst he; exact unmount_inv w h
  · by_cases hf : e = Event.effects
    · subst hf; exact (commit_inv w h).1
    · exact framed_inv w _ h (handle_framed w e he hf)

theorem foldl_step_inv (events : List Event) (w : World) (h : Inv w) :
    Inv (events.foldl step w) := by
  induction events generalizing w with
  | nil => exact h
  | cons e es ih => exact ih _ (step_inv w e h)

theorem run_inv (events : List Event) : Inv (run events) :=
  foldl_step_inv events mount mount_inv

theorem run_snoc (events : List Event) (e : Event) :
    run (events ++ [e]) = step (run events) e := by
  unfold run
  rw [List.foldl_append]
  rfl

/-! ## Status messages and timers -/

theorem foldl_clear_eq {β : Type} (l : List β) (w : World) (hm : w.mounted = true) :
    l.foldl (fun acc _ => setMessage "" acc) w =
      { w with message := if l.isEmpty = true then w.message else "" } := by
  induction l generalizing w with
  | nil => rfl
  | cons b l ih =>
    have h0 : setMessage "" w = { w with message := "" } := by simp [setMessage, hm]
    rw [List.foldl_cons, h0, ih { w with message := "" } hm]
    cases l <;> simp

/-- What the passing of `d` ms does to a mounted viewer: the clock moves, the
timeouts due by then are gone, and the message is blanked when there was one. -/
theorem advance_eq (d : Nat) (w : World) (hm : w.mounted = true) :
    advance d w =
      { w with
        now := w.now + d
        timers := w.timers.filter (fun x => decide (w.now + d < x))
        message :=
          if (w.timers.filter (fun x => decide (x ≤ w.now + d))).isEmpty = true
          then w.message else "" } := by
  unfold advance
  dsimp only
  exact foldl_clear_eq (w.timers.filter (fun x => decide (x ≤ w.now + d)))
    { w with now := w.now + d, timers := w.timers.filter (fun x => decide (w.now + d < x)) } hm

theorem advance_fields (d : Nat) (w : World) (hm : w.mounted = true) :
    (advance d w).message =
      (if (w.timers.filter (fun x => decide (x ≤ w.now + d))).isEmpty = true
        then w.message else "") ∧
    (advance d w).timers = w.timers.filter (fun x => decide (w.now + d < x)) ∧
    (advance d w).now = w.now + d ∧ (advance d w).mounted = true := by
  rw [advance_eq d w hm]
  exact ⟨rfl, rfl, rfl, hm⟩

theorem readLoad_at (i : Nat) (w : World) (f : File) (h : w.reads.get? i = some f) :
    readLoad i w = onload (readAsDataURL f) { w with reads := w.reads.eraseIdx i } := by
  unfold readLoad; rw [h]

theorem readError_at (i : Nat) (w : World) (f : File) (h : w.reads.get? i = some f) :
    readError i w = { w with reads := w.reads.eraseIdx i } := by
  unfold readError; rw [h]

theorem handleFileUpload_valid_eq (w : World) (file : File) (hm : w.mounted = true)
    (hf : file.type = "application/pdf") :
    handleFileUpload (some file) w =
      { w with pdfFile := some file, reads := w.reads ++ [file] } := by
  simp [handleFileUpload, setPdfFile, hm, hf]

theorem advance_message_due (d : Nat) (w : World) (hm : w.mounted = true) (x : Nat)
    (hx : x ∈ w.timers) (hd : x ≤ w.now + d) : (advance d w).message = "" := by
  rw [(advance_fields d w hm).1]
  have h : (w.timers.filter (fun x => decide (x ≤ w.now + d))).isEmpty = false := by
    rw [Bool.eq_false_iff, ne_eq, List.isEmpty_iff, List.filter_eq_nil_iff]
    intro h
    exact absurd (h x hx) (by simpa using hd)
  simp [h]

theorem advance_message_kept (d : Nat) (w : World) (hm : w.mounted = true)
    (h : ∀ x ∈ w.timers, w.now + d < x) : (advance d w).message = w.message := by
  rw [(advance_fields d w hm).1]
  have h : (w.timers.filter (fun x => decide (x ≤ w.now + d))).isEmpty = true := by
    rw [List.isEmpty_iff, List.filter_eq_nil_iff]
    intro x hx
    have := h x hx
    simp only [decide_eq_true_eq]
    omega
  simp [h]

theorem emission_fields (e : Emission) (w : World) (he : e.enabled = true)
    (hm : w.mounted = true) :
    (e.perform w).message = e.text ∧ (e.perform w).timers = w.timers ++ [w.now + 3000] ∧
    (e.perform w).now = w.now ∧ (e.perform w).mounted = true := by
  cases e with
  | invalidFile file =>
    cases file with
    | none => simp [Emission.perform, Emission.text, handleFileUpload, setTimeout, setMessage,
        setPdfData, setPdfFile, hm]
    | some f =>
      have hf : (f.type == "application/pdf") = false := by
        simpa [Emission.enabled, isPdf] using he
      simp [Emission.perform, Emission.text, handleFileUpload, setTimeout, setMessage,
        setPdfData, setPdfFile, hm, hf]
  | loaded file =>
    simp [Emission.perform, Emission.text, onload, setTimeout, setMessage, setPdfData, hm]
  | key e =>
    simp only [Emission.enabled, Bool.or_eq_true, Bool.and_eq_true] at he
    by_cases hp : (e.key == "PrintScreen") = true
    · have hs : (e.key == "s" || e.key == "S") = false := by
        have hk : e.key = "PrintScreen" := by simpa using hp
        rw [hk]; decide
      simp [Emission.perform, Emission.text, preventSave, setTimeout, setMessage, hm, hp, hs]
    · have hp2 : (e.key == "PrintScreen") = false := by simpa using hp
      rcases he with ⟨h1, h2⟩ | h
      · have h1b : (e.key == "s" || e.key == "S") = true := by simpa using h1
        have h2b : (e.ctrlKey || e.metaKey) = true := by simpa using h2
        simp [Emission.perform, Emission.text, preventSave, setTimeout, setMessage, hm, hp2,
          h1b, h2b]
      · exact absurd h hp
  | fullscreenRejected err =>
    simp [Emission.perform, Emission.text, onFullscreenRejected, setTimeout, setMessage, hm]

theorem onload_eq (result : String) (w : World) (hm : w.mounted = true) :
    onload result w =
      { w with pdfData := some result, message := "PDF loaded successfully",
               timers := w.timers ++ [w.now + 3000] } := by
  simp [onload, setTimeout, setMessage, setPdfData, hm]

theorem handleFileUpload_invalid_eq (w : World) (file : Option File) (hm : w.mounted = true)
    (hf : isPdf file = false) :
    handleFileUpload file w =
      { w with pdfFile := none, pdfData := none, message := "Please select a valid PDF file",
               timers := w.timers ++ [w.now + 3000] } := by
  cases file with
  | none => simp [handleFileUpload, setTimeout, setMessage, setPdfData, setPdfFile, hm]
  | some f =>
    have hf2 : (f.type == "application/pdf") = false := by simpa [isPdf] using hf
    simp [handleFileUpload, setTimeout, setMessage, setPdfData, setPdfFile, hm, hf2]

/-- What the successful completion of the `i`-th pending read does. -/
theorem readLoad_fields (i : Nat) (w : World) (f : File) (hm : w.mounted = true)
    (h : w.reads.get? i = some f) :
    (readLoad i w).pdfData = some (readAsDataURL f) ∧
    (readLoad i w).message = "PDF loaded successfully" ∧
    (readLoad i w).pdfFile = w.pdfFile ∧
    (readLoad i w).reads = w.reads.eraseIdx i ∧
    (readLoad i w).mounted = true ∧
    (readLoad i w).timers = w.timers ++ [w.now + 3000] ∧
    (readLoad i w).now = w.now := by
  rw [readLoad_at i w f h, onload_eq _ { w with reads := w.reads.eraseIdx i } hm]
  exact ⟨rfl, rfl, rfl, rfl, hm, rfl, rfl⟩

/-- A selection never touches the reads already pending. -/
theorem handleFileUpload_keeps_reads (w : World) (file : Option File) (hm : w.mounted = true)
    (i : Nat) (f : File) (h : w.reads.get? i = some f) :
    (handleFileUpload file w).mounted = true ∧
    (handleFileUpload file w).reads.get? i = some f ∧
    (handleFileUpload file w).pdfFile = (if isPdf file = true then file else none) := by
  by_cases hp : isPdf file = true
  · cases file with
    | none => exact absurd hp (by decide)
    | some b =>
      have hb : b.type = "application/pdf" := by simpa [isPdf] using hp
      rw [handleFileUpload_valid_eq w b hm hb, if_pos hp]
      refine ⟨hm, ?_, rfl⟩
      have hi : i < w.reads.length := by
        rw [List.get?_eq_getElem?] at h
        exact (List.getElem?_eq_some_iff.mp h).1
      simp only [List.get?_eq_getElem?] at h ⊢
      rw [List.getElem?_append_left hi]
      exact h
  · have hp2 : isPdf file = false := by simpa using hp
    rw [handleFileUpload_invalid_eq w file hm hp2, if_neg hp]
    exact ⟨hm, h, rfl⟩

theorem foldl_fullscreenChange_eq {β : Type} (l : List β) (w : World)
    (hm : w.mounted = true) :
    l.foldl (fun acc _ => fullscreenChange acc) w =
      { w with isFullscreen := if l.isEmpty = true then w.isFullscreen
                               else w.fullscreenElement } := by
  induction l generalizing w with
  | nil => rfl
  | cons b l ih =>
    have h0 : fullscreenChange w = { w with isFullscreen := w.fullscreenElement } := by
      simp [fullscreenChange, setIsFullscreen, hm]
    rw [List.foldl_cons, h0, ih { w with isFullscreen := w.fullscreenElement } hm]
    cases l <;> simp

theorem inv_counts (w : World) (h : Inv w) :
    w.contextmenu.length = (if w.mounted = true ∧ w.effectDeps ≠ none then 1 else 0) ∧
    w.keydown.length = (if w.mounted = true ∧ w.effectDeps ≠ none then 1 else 0) := by
  obtain ⟨_, _, _, hprot⟩ := h
  rcases hprot with ⟨hm, ht, c, k, _, hc, hk⟩ | ⟨hno, _, hc, hk⟩
  · have hne : w.effectDeps ≠ none := by
      intro h; rw [h] at ht; exact absurd ht (by decide)
    rw [hc, hk, if_pos ⟨hm, hne⟩]
    exact ⟨rfl, rfl⟩
  · have hneg : ¬ (w.mounted = true ∧ w.effectDeps ≠ none) := by
      rintro ⟨h1, h2⟩
      rcases hno with h | h
      · rw [h] at h1; exact absurd h1 (by decide)
      · exact h2 h
    rw [hc, hk, if_neg hneg]
    exact ⟨rfl, rfl⟩

/-- No fullscreen request and no exit was issued between `w1` and `w2`. -/
def NoFullscreenCommand (w1 w2 : World) : Prop :=
  w2.fullscreenRequests ≤ w1.fullscreenRequests ∧ w2.fullscreenExits = w1.fullscreenExits

theorem NoFullscreenCommand.stay (w : World) : NoFullscreenCommand w w :=
  ⟨le_refl _, rfl⟩

theorem NoFullscreenCommand.andThen {w1 w2 w3 : World} (h12 : NoFullscreenCommand w1 w2)
    (h23 : NoFullscreenCommand w2 w3) : NoFullscreenCommand w1 w3 :=
  ⟨le_trans h23.1 h12.1, h23.2.trans h12.2⟩

theorem foldl_noFullscreenCommand {β : Type} (f : World → β → World)
    (hf : ∀ w b, NoFullscreenCommand w (f w b)) (l : List β) (w : World) :
    NoFullscreenCommand w (l.foldl f w) := by
  induction l generalizing w with
  | nil => exact NoFullscreenCommand.stay w
  | cons b l ih => exact (hf w b).andThen (ih (f w b))

theorem setMessage_noFullscreenCommand (m : String) (w : World) :
    NoFullscreenCommand w (setMessage m w) := by
  unfold setMessage; split <;> exact NoFullscreenCommand.stay w

theorem emit_noFullscreenCommand (m : String) (w : World) :
    NoFullscreenCommand w (setTimeout 3000 (setMessage m w)) :=
  (setMessage_noFullscreenCommand m w).andThen ⟨le_refl _, rfl⟩

theorem handleFileUpload_noFullscreenCommand (file : Option File) (w : World) :
    NoFullscreenCommand w (handleFileUpload file w) := by
  have hinv : NoFullscreenCommand w (setTimeout 3000 (setMessage "Please select a valid PDF file"
      (setPdfData none (setPdfFile none w)))) := by
    refine NoFullscreenCommand.andThen ?_ (emit_noFullscreenCommand _ _)
    unfold setPdfData setPdfFile
    repeat' split
    all_goals exact ⟨le_refl _, rfl⟩
  unfold handleFileUpload
  split
  · split
    · unfold setPdfFile; split <;> exact ⟨le_refl _, rfl⟩
    · exact hinv
  · exact hinv

theorem onload_noFullscreenCommand (r : String) (w : World) :
    NoFullscreenCommand w (onload r w) := by
  unfold onload
  refine NoFullscreenCommand.andThen ?_ (emit_noFullscreenCommand _ _)
  unfold setPdfData; split <;> exact ⟨le_refl _, rfl⟩

theorem preventSave_noFullscreenCommand (e : KeyEvent) (w : World) :
    NoFullscreenCommand w (preventSave e w).2 := by
  unfold preventSave
  dsimp only
  split <;> split <;> first
    | exact NoFullscreenCommand.stay w
    | exact emit_noFullscreenCommand _ w
    | exact (emit_noFullscreenCommand _ w).andThen (emit_noFullscreenCommand _ _)

theorem dispatchKeydown_noFullscreenCommand (e : KeyEvent) (w : World) :
    NoFullscreenCommand w (dispatchKeydown e w).2 := by
  unfold dispatchKeydown
  generalize w.keydown = l
  induction l generalizing e w with
  | nil => exact NoFullscreenCommand.stay w
  | cons b l ih =>
    rw [List.foldl_cons]
    exact (preventSave_noFullscreenCommand e w).andThen (ih _ _)

theorem commit_noFullscreenCommand (w : World) : NoFullscreenCommand w (commit w) := by
  unfold commit runProtectionEffect runCleanup
  repeat' split
  all_goals exact ⟨le_refl _, rfl⟩

theorem unmount_noFullscreenCommand (w : World) : NoFullscreenCommand w (unmount w) := by
  unfold unmount runCleanup
  dsimp only
  repeat' split
  all_goals exact ⟨le_refl _, rfl⟩

theorem clickFullscreen_without_document (w : World) (h : w.pdfData = none) :
    (∀ b : Button, fullscreenButton w = some b → b.disabled = true) ∧
    clickFullscreen w = w := by
  have hb : ∀ b : Button, fullscreenButton w = some b → b.disabled = true := by
    intro b hb
    unfold fullscreenButton at hb
    split at hb
    · cases hb; rw [h]; rfl
    · cases hb
  refine ⟨hb, ?_⟩
  unfold clickFullscreen
  split
  · rfl
  · next b hbtn => rw [hb b hbtn]; rfl

/-- With no document loaded no event at all issues a fullscreen request or exit. -/
theorem handle_noFullscreenCommand (w : World) (e : Event) (h : w.pdfData = none) :
    NoFullscreenCommand w (handle w e) := by
  cases e with
  | selectFile file =>
    simp only [handle]; split
    · exact handleFileUpload_noFullscreenCommand file w
    · exact NoFullscreenCommand.stay w
  | readLoad i =>
    simp only [handle, readLoad]; split
    · exact NoFullscreenCommand.stay w
    · exact NoFullscreenCommand.andThen ⟨le_refl _, rfl⟩ (onload_noFullscreenCommand _ _)
  | readError i =>
    simp only [handle, readError]; split <;> exact ⟨le_refl _, rfl⟩
  | keydown e => exact dispatchKeydown_noFullscreenCommand e w
  | contextmenu =>
    simp only [handle, dispatchContextmenu_snd]; exact NoFullscreenCommand.stay w
  | editWatermark text =>
    simp only [handle, setWatermarkText]; split <;> try split
    all_goals exact ⟨le_refl _, rfl⟩
  | toggleControls =>
    simp only [handle, setShowControls]; split <;> try split
    all_goals exact ⟨le_refl _, rfl⟩
  | dismissTutorial =>
    simp only [handle, setShowTutorial]; split <;> try split
    all_goals exact ⟨le_refl _, rfl⟩
  | clickFullscreen =>
    simp only [handle, (clickFullscreen_without_document w h).2]
    split <;> exact NoFullscreenCommand.stay w
  | fullscreenGranted =>
    simp only [handle]; split
    · exact ⟨Nat.sub_le _ _, rfl⟩
    · exact NoFullscreenCommand.stay w
  | fullscreenRejected err =>
    simp only [handle, onFullscreenRejected]; split
    · have h2 := emit_noFullscreenCommand ("Error attempting to enable fullscreen: " ++ err)
        { w with fullscreenRequests := w.fullscreenRequests - 1 }
      have h1 : NoFullscreenCommand w
          { w with fullscreenRequests := w.fullscreenRequests - 1 } :=
        ⟨Nat.sub_le _ _, rfl⟩
      exact h1.andThen h2
    · exact NoFullscreenCommand.stay w
  | fullscreenLeft => exact ⟨le_refl _, rfl⟩
  | fullscreenchange =>
    simp only [handle, dispatchFullscreenchange]
    refine foldl_noFullscreenCommand _ (fun w _ => ?_) _ _
    unfold fullscreenChange setIsFullscreen
    split <;> exact ⟨le_refl _, rfl⟩
  | advance d =>
    simp only [handle, advance]
    exact NoFullscreenCommand.andThen ⟨le_refl _, rfl⟩
      (foldl_noFullscreenCommand _ (fun w _ => setMessage_noFullscreenCommand "" w) _ _)
  | effects => exact commit_noFullscreenCommand w
  | unmount => exact unmount_noFullscreenCommand w

/-! ## The properties -/

/-- C1, refuted as stated: a PDF is selected and its read completes.  The viewer
is mounted, `pdfData` is the document's data and the document with its overlay
is rendered, but the protection effect has not run yet: no `contextmenu` and no
`keydown` listener is registered.  They are registered (one of each) once the
effect has run. -/
theorem document_displayed_before_listeners_registered :
    (run [.selectFile (some samplePdf), .readLoad 0]).mounted = true ∧
    (run [.selectFile (some samplePdf), .readLoad 0]).pdfData
      = some (readAsDataURL samplePdf) ∧
    (overlay (run [.selectFile (some samplePdf), .readLoad 0])).isSome = true ∧
    (run [.selectFile (some samplePdf), .readLoad 0]).contextmenu.length = 0 ∧
    (run [.selectFile (some samplePdf), .readLoad 0]).keydown.length = 0 ∧
    (run [.selectFile (some samplePdf), .readLoad 0, .effects]).contextmenu.length = 1 ∧
    (run [.selectFile (some samplePdf), .readLoad 0, .effects]).keydown.length = 1 := by
  decide

/-- C1, amended: for every sequence of events from the freshly mounted, empty
viewer: once the pending protection effect has run, the number of registered
`contextmenu` listeners and the number of registered `keydown` listeners are
each 1 when the component is mounted and `pdfData` is non-null, and 0 when
`pdfData` is null or the component is unmounted.  In every reachable state,
also between a change of `pdfData` and the run of the effect, each number is 1
when the component is mounted and the effect last ran with a non-null value and
0 otherwise; so it is never 2 (loading a second document does not leave two
listeners of a kind), and it is 0 once the component is unmounted. -/
theorem protection_listeners_track_effect (events : List Event) :
    (run (events ++ [.effects])).contextmenu.length =
      (if (run (events ++ [.effects])).mounted = true ∧
          (run (events ++ [.effects])).pdfData ≠ none then 1 else 0) ∧
    (run (events ++ [.effects])).keydown.length =
      (if (run (events ++ [.effects])).mounted = true ∧
          (run (events ++ [.effects])).pdfData ≠ none then 1 else 0) ∧
    (run events).contextmenu.length =
      (if (run events).mounted = true ∧ (run events).effectDeps ≠ none then 1 else 0) ∧
    (run events).keydown.length =
      (if (run events).mounted = true ∧ (run events).effectDeps ≠ none then 1 else 0) ∧
    ((run events).effectDeps = (run events).pdfData →
      (run events).contextmenu.length =
        (if (run events).mounted = true ∧ (run events).pdfData ≠ none then 1 else 0) ∧
      (run events).keydown.length =
        (if (run events).mounted = true ∧ (run events).pdfData ≠ none then 1 else 0)) ∧
    (run events).contextmenu.length ≤ 1 ∧ (run events).keydown.length ≤ 1 ∧
    ((run events).mounted = false →
      (run events).contextmenu.length = 0 ∧ (run events).keydown.length = 0) := by
  obtain ⟨k1, k2⟩ := inv_counts _ (run_inv events)
  have hafter : ∀ v : World, Inv v → (v.mounted = true → v.effectDeps = v.pdfData) →
      v.contextmenu.length = (if v.mounted = true ∧ v.pdfData ≠ none then 1 else 0) ∧
      v.keydown.length = (if v.mounted = true ∧ v.pdfData ≠ none then 1 else 0) := by
    intro v hv hdeps
    obtain ⟨a1, a2⟩ := inv_counts v hv
    by_cases hm : v.mounted = true
    · rw [a1, a2, hdeps hm]; exact ⟨rfl, rfl⟩
    · rw [a1, a2]; simp [hm]
  refine ⟨?_, ?_, k1, k2, ?_, ?_, ?_, ?_⟩
  · exact (hafter _ (run_inv _) (by
      rw [run_snoc]
      intro hm
      have hc := commit_inv (run events) (run_inv events)
      exact hc.2.1 (hc.2.2.1 ▸ hm))).1
  · exact (hafter _ (run_inv _) (by
      rw [run_snoc]
      intro hm
      have hc := commit_inv (run events) (run_inv events)
      exact hc.2.1 (hc.2.2.1 ▸ hm))).2
  · intro hd
    exact hafter _ (run_inv events) (fun _ => hd)
  · rw [k1]; split <;> omega
  · rw [k2]; split <;> omega
  · intro hm
    rw [k1, k2]; simp [hm]

/-- C2: for every state of the mounted viewer (a document may be loaded) and
every selection that is no file or a file whose declared type is not
`application/pdf`, `handleFileUpload` leaves `pdfFile` and `pdfData` null, sets
the message to "Please select a valid PDF file" and schedules one clearing
3000 ms later, which blanks the message when it fires. -/
theorem handleFileUpload_invalid (w : World) (file : Option File)
    (hm : w.mounted = true) (hf : isPdf file = false) :
    (handleFileUpload file w).pdfFile = none ∧
    (handleFileUpload file w).pdfData = none ∧
    (handleFileUpload file w).message = "Please select a valid PDF file" ∧
    (handleFileUpload file w).timers = w.timers ++ [w.now + 3000] ∧
    (advance 3000 (handleFileUpload file w)).message = "" := by
  have he : (Emission.invalidFile file).enabled = true := by
    simp [Emission.enabled, hf]
  obtain ⟨e1, e2, e3, e4⟩ := emission_fields (Emission.invalidFile file) w he hm
  simp only [Emission.perform, Emission.text] at e1 e2 e3 e4
  refine ⟨?_, ?_, e1, e2, ?_⟩
  · cases file with
    | none => simp [handleFileUpload, setTimeout, setMessage, setPdfData, setPdfFile, hm]
    | some f =>
      have hf2 : (f.type == "application/pdf") = false := by simpa [isPdf] using hf
      simp [handleFileUpload, setTimeout, setMessage, setPdfData, setPdfFile, hm, hf2]
  · cases file with
    | none => simp [handleFileUpload, setTimeout, setMessage, setPdfData, setPdfFile, hm]
    | some f =>
      have hf2 : (f.type == "application/pdf") = false := by simpa [isPdf] using hf
      simp [handleFileUpload, setTimeout, setMessage, setPdfData, setPdfFile, hm, hf2]
  · refine advance_message_due 3000 _ e4 (w.now + 3000) ?_ ?_
    · rw [e2]; simp
    · rw [e3]

/-- Witness of C2: a text file selected while a document is displayed. -/
theorem handleFileUpload_invalid_witness :
    (run [.selectFile (some samplePdf), .readLoad 0]).pdfData ≠ none ∧
    (handleFileUpload (some sampleText)
      (run [.selectFile (some samplePdf), .readLoad 0])).pdfData = none ∧
    (handleFileUpload (some sampleText)
      (run [.selectFile (some samplePdf), .readLoad 0])).message
        = "Please select a valid PDF file" :=
  ⟨by decide,
   (handleFileUpload_invalid (run [.selectFile (some samplePdf), .readLoad 0])
      (some sampleText) (by decide) (by decide)).2.1,
   (handleFileUpload_invalid (run [.selectFile (some samplePdf), .readLoad 0])
      (some sampleText) (by decide) (by decide)).2.2.1⟩

/-- C3: for every file of declared type `application/pdf`: once
`handleFileUpload` was called with it in a mounted viewer and, `d` ms later and
with no other event in between, its read completes, `pdfData` is the read
result (non-null, truthy), `pdfFile` is that file, the message is "PDF loaded
successfully" and one more clearing is pending, due 3000 ms after completion. -/
theorem handleFileUpload_valid_then_load (w : World) (file : File) (d : Nat)
    (hm : w.mounted = true) (hf : file.type = "application/pdf") :
    (handleFileUpload (some file) w).reads = w.reads ++ [file] ∧
    (readLoad w.reads.length (advance d (handleFileUpload (some file) w))).pdfData
      = some (readAsDataURL file) ∧
    truthy (readLoad w.reads.length (advance d (handleFileUpload (some file) w))).pdfData
      = true ∧
    (readLoad w.reads.length (advance d (handleFileUpload (some file) w))).pdfFile
      = some file ∧
    (readLoad w.reads.length (advance d (handleFileUpload (some file) w))).message
      = "PDF loaded successfully" ∧
    (readLoad w.reads.length (advance d (handleFileUpload (some file) w))).timers
      = (advance d (handleFileUpload (some file) w)).timers ++ [w.now + d + 3000] ∧
    (advance 3000
      (readLoad w.reads.length (advance d (handleFileUpload (some file) w)))).message = "" := by
  have h1 := handleFileUpload_valid_eq w file hm hf
  have hm1 : (handleFileUpload (some file) w).mounted = true := by rw [h1]; exact hm
  have h2 := advance_eq d (handleFileUpload (some file) w) hm1
  have hr : (advance d (handleFileUpload (some file) w)).reads = w.reads ++ [file] := by
    rw [h2, h1]
  have hg : (advance d (handleFileUpload (some file) w)).reads.get? w.reads.length
      = some file := by
    rw [hr]; simp
  have h3 := readLoad_at _ _ _ hg
  have hm2 : (advance d (handleFileUpload (some file) w)).mounted = true := by
    rw [h2]; exact hm1
  have hnow : (advance d (handleFileUpload (some file) w)).now = w.now + d := by
    rw [h2, h1]
  have hfile : (advance d (handleFileUpload (some file) w)).pdfFile = some file := by
    rw [h2, h1]
  have hload : readLoad w.reads.length (advance d (handleFileUpload (some file) w)) =
      { advance d (handleFileUpload (some file) w) with
        reads := (advance d (handleFileUpload (some file) w)).reads.eraseIdx w.reads.length
        pdfData := some (readAsDataURL file)
        message := "PDF loaded successfully"
        timers := (advance d (handleFileUpload (some file) w)).timers ++ [w.now + d + 3000] } := by
    rw [h3]
    simp [onload, setTimeout, setMessage, setPdfData, hm2, hnow]
  refine ⟨by rw [h1], by rw [hload], ?_, by rw [hload]; exact hfile, by rw [hload],
    by rw [hload], ?_⟩
  · rw [hload]; exact readAsDataURL_truthy file
  · refine advance_message_due 3000 _ ?_ (w.now + d + 3000) ?_ ?_
    · rw [hload]; exact hm2
    · rw [hload]; simp
    · rw [hload]; simp [hnow]

/-- Witness of C3: a PDF selected in the freshly mounted viewer, read in 1200 ms. -/
theorem handleFileUpload_valid_then_load_witness :
    (readLoad mount.reads.length
      (advance 1200 (handleFileUpload (some samplePdf) mount))).pdfData
        = some (readAsDataURL samplePdf) ∧
    (readLoad mount.reads.length
      (advance 1200 (handleFileUpload (some samplePdf) mount))).message
        = "PDF loaded successfully" :=
  ⟨(handleFileUpload_valid_then_load mount samplePdf 1200 (by decide) (by decide)).2.1,
   (handleFileUpload_valid_then_load mount samplePdf 1200 (by decide) (by decide)).2.2.2.2.1⟩

/-- C4, refuted as stated: a PDF is selected, then (its read still pending) a
text file; the selection of the text file leaves `pdfData` null and the message
"Please select a valid PDF file"; when the stale read then completes, `pdfData`
becomes the PDF's data and the message "PDF loaded successfully", although the
latest selection was invalid and `pdfFile` is null. -/
theorem stale_read_overwrites_newer_selection :
    (run [.selectFile (some samplePdf), .selectFile (some sampleText)]).pdfData = none ∧
    (run [.selectFile (some samplePdf), .selectFile (some sampleText)]).message
      = "Please select a valid PDF file" ∧
    (run [.selectFile (some samplePdf), .selectFile (some sampleText)]).reads = [samplePdf] ∧
    (run [.selectFile (some samplePdf), .selectFile (some sampleText), .readLoad 0]).pdfData
      = some (readAsDataURL samplePdf) ∧
    (run [.selectFile (some samplePdf), .selectFile (some sampleText), .readLoad 0]).message
      = "PDF loaded successfully" ∧
    (run [.selectFile (some samplePdf), .selectFile (some sampleText), .readLoad 0]).pdfFile
      = none ∧
    (run [.selectFile (some samplePdf), .selectFile (some sampleText), .readLoad 0]).reads
      = [] := by
  decide

/-- C4, amended: a stale read is not discarded.  When the read of an earlier
valid selection `a` completes after a second selection, `pdfData` becomes the
data of `a` and the message "PDF loaded successfully", while `pdfFile` stays
that of the second selection (null when it was invalid).  When the second
selection is a valid file `b` and its read completes first, the later
completion of the read of `a` still wins: `pdfData` is the data of the read
that completed last, `pdfFile` is `b`. -/
theorem stale_read_is_applied (w : World) (a : File) (second : Option File)
    (hm : w.mounted = true) (ha : a.type = "application/pdf") :
    (readLoad w.reads.length
      (handleFileUpload second (handleFileUpload (some a) w))).pdfData
        = some (readAsDataURL a) ∧
    (readLoad w.reads.length
      (handleFileUpload second (handleFileUpload (some a) w))).message
        = "PDF loaded successfully" ∧
    (readLoad w.reads.length
      (handleFileUpload second (handleFileUpload (some a) w))).pdfFile
        = (if isPdf second = true then second else none) ∧
    (∀ b : File, second = some b → b.type = "application/pdf" →
      (readLoad w.reads.length (readLoad (w.reads.length + 1)
        (handleFileUpload second (handleFileUpload (some a) w)))).pdfData
          = some (readAsDataURL a) ∧
      (readLoad w.reads.length (readLoad (w.reads.length + 1)
        (handleFileUpload second (handleFileUpload (some a) w)))).pdfFile = some b ∧
      (readLoad w.reads.length (readLoad (w.reads.length + 1)
        (handleFileUpload second (handleFileUpload (some a) w)))).reads = w.reads) := by
  have h1 := handleFileUpload_valid_eq w a hm ha
  have hm1 : (handleFileUpload (some a) w).mounted = true := by rw [h1]; exact hm
  have hg1 : (handleFileUpload (some a) w).reads.get? w.reads.length = some a := by
    rw [h1]; simp
  have hr1 : (handleFileUpload (some a) w).reads = w.reads ++ [a] := by rw [h1]
  obtain ⟨hm2, hg2, hf2⟩ := handleFileUpload_keeps_reads _ second hm1 _ _ hg1
  obtain ⟨l1, l2, l3, _⟩ := readLoad_fields _ _ _ hm2 hg2
  refine ⟨l1, l2, l3.trans hf2, ?_⟩
  intro b hb hbt
  subst hb
  have hr2 : (handleFileUpload (some b) (handleFileUpload (some a) w)).reads
      = w.reads ++ [a] ++ [b] := by
    rw [handleFileUpload_valid_eq _ b hm1 hbt]
    exact congrArg (fun l => l ++ [b]) hr1
  have hlen : w.reads.length + 1 = (w.reads ++ [a]).length := by simp
  have hgb : (handleFileUpload (some b) (handleFileUpload (some a) w)).reads.get?
      (w.reads.length + 1) = some b := by
    rw [hr2, hlen, List.get?_eq_getElem?]
    exact List.getElem?_concat_length _ _
  obtain ⟨_, _, b3, b4, b5, _⟩ := readLoad_fields _ _ _ hm2 hgb
  have hr3 : (readLoad (w.reads.length + 1)
      (handleFileUpload (some b) (handleFileUpload (some a) w))).reads = w.reads ++ [a] := by
    rw [b4, hr2, hlen, List.eraseIdx_append_of_length_le (le_refl _)]
    simp
  have hga : (readLoad (w.reads.length + 1)
      (handleFileUpload (some b) (handleFileUpload (some a) w))).reads.get? w.reads.length
        = some a := by
    rw [hr3]; simp
  obtain ⟨a1, _, a3, a4, _⟩ := readLoad_fields _ _ _ b5 hga
  refine ⟨a1, ?_, ?_⟩
  · rw [a3, b3, hf2]; simp [isPdf, hbt]
  · rw [a4, hr3]
    have := List.eraseIdx_append_of_length_le (le_refl w.reads.length) [a]
    rw [this]; simp

/-- Witness of C4 (amended): in the freshly mounted viewer a PDF is selected,
then a text file, respectively a second PDF whose read completes first. -/
theorem stale_read_is_applied_witness :
    (readLoad mount.reads.length
      (handleFileUpload (some sampleText) (handleFileUpload (some samplePdf) mount))).pdfData
        = some (readAsDataURL samplePdf) ∧
    (readLoad mount.reads.length (readLoad (mount.reads.length + 1)
      (handleFileUpload (some otherPdf) (handleFileUpload (some samplePdf) mount)))).pdfData
        = some (readAsDataURL samplePdf) ∧
    (readLoad mount.reads.length (readLoad (mount.reads.length + 1)
      (handleFileUpload (some otherPdf) (handleFileUpload (some samplePdf) mount)))).pdfFile
        = some otherPdf :=
  ⟨(stale_read_is_applied mount samplePdf (some sampleText) (by decide) (by decide)).1,
   ((stale_read_is_applied mount samplePdf (some otherPdf) (by decide) (by decide)).2.2.2
      otherPdf rfl (by decide)).1,
   ((stale_read_is_applied mount samplePdf (some otherPdf) (by decide) (by decide)).2.2.2
      otherPdf rfl (by decide)).2.1⟩

/-- C5, refuted as stated: with a document loaded, its listeners registered
and no timeout pending, Ctrl+S is pressed at 5000 ms and PrintScreen at
6000 ms.  The second message is visible at 6000 ms and still at 7999 ms, but at
8000 ms, which is 3000 ms after the FIRST emission and only 2000 ms after its
own, it is blank. -/
theorem first_timeout_blanks_second_message :
    (run [.selectFile (some samplePdf), .readLoad 0, .effects, .advance 5000,
      .keydown ctrlS,
      .advance 1000, .keydown printScreenKey]).message
        = "Screenshots are disabled for security reasons" ∧
    (run [.selectFile (some samplePdf), .readLoad 0, .effects, .advance 5000,
      .keydown ctrlS,
      .advance 1000, .keydown printScreenKey]).now = 6000 ∧
    (run [.selectFile (some samplePdf), .readLoad 0, .effects, .advance 5000,
      .keydown ctrlS,
      .advance 1000, .keydown printScreenKey]).timers = [8000, 9000] ∧
    (run [.selectFile (some samplePdf), .readLoad 0, .effects, .advance 5000,
      .keydown ctrlS,
      .advance 1000, .keydown printScreenKey, .advance 1999]).message
        = "Screenshots are disabled for security reasons" ∧
    (run [.selectFile (some samplePdf), .readLoad 0, .effects, .advance 5000,
      .keydown ctrlS,
      .advance 1000, .keydown printScreenKey, .advance 2000]).message = "" ∧
    (run [.selectFile (some samplePdf), .readLoad 0, .effects, .advance 5000,
      .keydown ctrlS,
      .advance 1000, .keydown printScreenKey, .advance 2000]).now = 8000 := by
  decide

/-- C5, amended: no clearing is ever cancelled.  For every two emissions (by
the invalid-file branch, a completed read, the key listener or a fullscreen
rejection) in a mounted viewer at times `t1 < t2 < t1 + 3000`, the second
message is the visible one at `t2`, both clearings are still pending, and the
clearing of the first emission blanks the second message at `t1 + 3000`; until
then the second message stays visible, provided no clearing scheduled before
the first emission falls due in between. -/
theorem second_message_blanked_by_first_timeout (w : World) (e1 e2 : Emission) (d : Nat)
    (hm : w.mounted = true) (h1 : e1.enabled = true) (h2 : e2.enabled = true)
    (hd0 : 0 < d) (hd : d < 3000) :
    (e2.perform (advance d (e1.perform w))).message = e2.text ∧
    (e2.perform (advance d (e1.perform w))).now = w.now + d ∧
    w.now + 3000 ∈ (e2.perform (advance d (e1.perform w))).timers ∧
    w.now + d + 3000 ∈ (e2.perform (advance d (e1.perform w))).timers ∧
    (advance (3000 - d) (e2.perform (advance d (e1.perform w)))).message = "" ∧
    (∀ x : Nat, x < 3000 - d →
      (∀ t ∈ w.timers, t ≤ w.now + d ∨ w.now + d + x < t) →
      (advance x (e2.perform (advance d (e1.perform w)))).message = e2.text) := by
  obtain ⟨_, a2, a3, a4⟩ := emission_fields e1 w h1 hm
  obtain ⟨_, b2, b3, b4⟩ := advance_fields d (e1.perform w) a4
  obtain ⟨c1, c2, c3, c4⟩ := emission_fields e2 (advance d (e1.perform w)) h2 b4
  rw [a3] at b3
  rw [b3] at c3
  have htim : (e2.perform (advance d (e1.perform w))).timers =
      w.timers.filter (fun x => decide (w.now + d < x)) ++ [w.now + 3000] ++
        [w.now + d + 3000] := by
    rw [c2, b2, a2, a3, b3, List.filter_append]
    have : (List.filter (fun x => decide (w.now + d < x)) [w.now + 3000]) = [w.now + 3000] := by
      have hlt : decide (w.now + d < w.now + 3000) = true := by
        rw [decide_eq_true_eq]; omega
      simp only [List.filter_cons, List.filter_nil, hlt, if_true]
    rw [this]
  refine ⟨c1, c3, ?_, ?_, ?_, ?_⟩
  · rw [htim]; simp
  · rw [htim]; simp
  · refine advance_message_due _ _ c4 (w.now + 3000) ?_ ?_
    · rw [htim]; simp
    · rw [c3]; omega
  · intro x hx hold
    rw [advance_message_kept x _ c4, c1]
    intro t ht
    rw [htim] at ht
    rw [c3]
    simp only [List.mem_append, List.mem_filter, List.mem_singleton, decide_eq_true_eq] at ht
    rcases ht with (⟨ht1, ht2⟩ | ht) | ht
    · rcases hold t ht1 with h | h
      · omega
      · exact h
    · omega
    · omega

/-- Witness of C5 (amended): Ctrl+S, then PrintScreen 1000 ms later, with a
document loaded. -/
theorem second_message_blanked_by_first_timeout_witness :
    (advance (3000 - 1000) ((Emission.key printScreenKey).perform (advance 1000
      ((Emission.key ctrlS).perform (run [.selectFile (some samplePdf), .readLoad 0]))))).message
        = "" :=
  (second_message_blanked_by_first_timeout (run [.selectFile (some samplePdf), .readLoad 0])
    (Emission.key ctrlS) (Emission.key printScreenKey) 1000
    (by decide) (by decide) (by decide) (by decide) (by decide)).2.2.2.2.1


/-- C6, refuted as stated: a PDF is selected and its read completes; the
document is loaded and rendered, but the protection effect has not run yet.  A
Ctrl+S and a PrintScreen arriving now reach no listener: their default action
is not prevented, the message stays "PDF loaded successfully" and no clearing
is added. -/
theorem keydown_before_effect_not_suppressed :
    (run [.selectFile (some samplePdf), .readLoad 0]).pdfData
      = some (readAsDataURL samplePdf) ∧
    (overlay (run [.selectFile (some samplePdf), .readLoad 0])).isSome = true ∧
    (dispatchKeydown ctrlS
      (run [.selectFile (some samplePdf), .readLoad 0])).1.defaultPrevented = false ∧
    (dispatchKeydown ctrlS
      (run [.selectFile (some samplePdf), .readLoad 0])).2.message
        = "PDF loaded successfully" ∧
    (dispatchKeydown printScreenKey
      (run [.selectFile (some samplePdf), .readLoad 0])).1.defaultPrevented = false ∧
    (dispatchKeydown printScreenKey
      (run [.selectFile (some samplePdf), .readLoad 0])).2.message
        = "PDF loaded successfully" ∧
    (dispatchKeydown printScreenKey
      (run [.selectFile (some samplePdf), .readLoad 0])).2.timers
        = (run [.selectFile (some samplePdf), .readLoad 0]).timers := by
  decide

/-- C6, amended: while a document is loaded and the protection effect has run
for it (in every reachable state of the mounted viewer with `pdfData` non-null
and no effect pending), a `keydown` event whose key is "s" or "S" with Ctrl or
Cmd held has its default action prevented and sets the message to "Saving is
disabled for security reasons"; one whose key is "PrintScreen" has its default
action prevented and sets the message to "Screenshots are disabled for security
reasons"; in both cases exactly one clearing is scheduled, due 3000 ms later.
Every other `keydown` event (Ctrl+P, say) is left as it is and changes
nothing. -/
theorem keydown_save_and_printscreen_suppressed (events : List Event) (e : KeyEvent)
    (hm : (run events).mounted = true) (hd : (run events).pdfData ≠ none)
    (he : (run events).effectDeps = (run events).pdfData) :
    ((e.key = "s" ∨ e.key = "S") ∧ (e.ctrlKey = true ∨ e.metaKey = true) →
      (dispatchKeydown e (run events)).1.defaultPrevented = true ∧
      (dispatchKeydown e (run events)).2.message = "Saving is disabled for security reasons" ∧
      (dispatchKeydown e (run events)).2.timers
        = (run events).timers ++ [(run events).now + 3000]) ∧
    (e.key = "PrintScreen" →
      (dispatchKeydown e (run events)).1.defaultPrevented = true ∧
      (dispatchKeydown e (run events)).2.message
        = "Screenshots are disabled for security reasons" ∧
      (dispatchKeydown e (run events)).2.timers
        = (run events).timers ++ [(run events).now + 3000]) ∧
    (¬ ((e.key = "s" ∨ e.key = "S") ∧ (e.ctrlKey = true ∨ e.metaKey = true)) →
      e.key ≠ "PrintScreen" → dispatchKeydown e (run events) = (e, run events)) := by
  obtain ⟨_, _, _, hprot⟩ := run_inv events
  have hone : ∃ k, (run events).keydown = [k] := by
    rcases hprot with ⟨_, _, _, k, _, _, hk⟩ | ⟨hno, _⟩
    · exact ⟨k, hk⟩
    · rcases hno with h | h
      · rw [h] at hm; exact absurd hm (by decide)
      · exact absurd (he.symm.trans h) hd
  obtain ⟨k, hk⟩ := hone
  have hdisp : dispatchKeydown e (run events) = preventSave e (run events) := by
    unfold dispatchKeydown; rw [hk]; rfl
  rw [hdisp]
  refine ⟨?_, ?_, ?_⟩
  · rintro ⟨hkey, hmod⟩
    have h1 : (e.key == "s" || e.key == "S") = true := by
      rcases hkey with h | h <;> simp [h]
    have h2 : (e.ctrlKey || e.metaKey) = true := by
      rcases hmod with h | h <;> simp [h]
    have h3 : (e.key == "PrintScreen") = false := by
      rcases hkey with h | h <;> rw [h] <;> decide
    have hen : (Emission.key e).enabled = true := by simp [Emission.enabled, h1, h2]
    obtain ⟨f1, f2, _, _⟩ := emission_fields (Emission.key e) (run events) hen hm
    simp only [Emission.perform, Emission.text, h3, Bool.false_eq_true, if_false] at f1 f2
    refine ⟨?_, f1, f2⟩
    simp [preventSave, h1, h2, h3]
  · intro hkey
    have h3 : (e.key == "PrintScreen") = true := by simp [hkey]
    have hen : (Emission.key e).enabled = true := by simp [Emission.enabled, h3]
    obtain ⟨f1, f2, _, _⟩ := emission_fields (Emission.key e) (run events) hen hm
    simp only [Emission.perform, Emission.text, h3, if_true] at f1 f2
    refine ⟨?_, f1, f2⟩
    have h1 : (e.key == "s" || e.key == "S") = false := by rw [hkey]; decide
    simp [preventSave, h1, h3]
  · intro hnot hkey
    have h3 : (e.key == "PrintScreen") = false := by simpa using hkey
    have h12 : ((e.key == "s" || e.key == "S") && (e.ctrlKey || e.metaKey)) = false := by
      rw [Bool.eq_false_iff]
      intro hc
      simp only [Bool.and_eq_true, Bool.or_eq_true, beq_iff_eq] at hc
      exact hnot hc
    simp [preventSave, h12, h3]

/-- Witness of C6 (amended): Ctrl+S and PrintScreen with a document loaded and
the effect run. -/
theorem keydown_save_and_printscreen_suppressed_witness :
    (run [.selectFile (some samplePdf), .readLoad 0, .effects]).mounted = true ∧
    (run [.selectFile (some samplePdf), .readLoad 0, .effects]).pdfData ≠ none ∧
    (dispatchKeydown ctrlS
      (run [.selectFile (some samplePdf), .readLoad 0, .effects])).1.defaultPrevented
      = true ∧
    (dispatchKeydown printScreenKey
      (run [.selectFile (some samplePdf), .readLoad 0, .effects])).2.message
        = "Screenshots are disabled for security reasons" :=
  ⟨by decide, by decide,
   ((keydown_save_and_printscreen_suppressed
      [.selectFile (some samplePdf), .readLoad 0, .effects] ctrlS
      (by decide) (by decide) (by decide)).1 ⟨Or.inl rfl, Or.inl rfl⟩).1,
   ((keydown_save_and_printscreen_suppressed
      [.selectFile (some samplePdf), .readLoad 0, .effects]
      printScreenKey (by decide) (by decide) (by decide)).2.1 rfl).2.1⟩

/-- C7, refuted as stated: a document is loaded and its message has expired; a
second PDF is selected and its read fails.  Afterwards `pdfData` is still the
first document's data (not null), the message is empty, and no timeout is
pending: nothing was emitted. -/
theorem read_failure_keeps_document_and_emits_nothing :
    (run [.selectFile (some samplePdf), .readLoad 0, .advance 5000,
      .selectFile (some otherPdf), .readError 0]).pdfData = some (readAsDataURL samplePdf) ∧
    (run [.selectFile (some samplePdf), .readLoad 0, .advance 5000,
      .selectFile (some otherPdf), .readError 0]).pdfFile = some otherPdf ∧
    (run [.selectFile (some samplePdf), .readLoad 0, .advance 5000,
      .selectFile (some otherPdf), .readError 0]).message = "" ∧
    (run [.selectFile (some samplePdf), .readLoad 0, .advance 5000,
      .selectFile (some otherPdf), .readError 0]).timers = [] ∧
    (run [.selectFile (some samplePdf), .readLoad 0, .advance 5000,
      .selectFile (some otherPdf), .readError 0]).reads = [] ∧
    statusMessage (run [.selectFile (some samplePdf), .readLoad 0, .advance 5000,
      .selectFile (some otherPdf), .readError 0]) = none := by
  decide

/-- C7, amended: when the read of a selected file of declared type
`application/pdf` fails, `d` ms after the selection, no code of the component
runs.  The failure changes no state cell and emits no message: afterwards the
viewer is what the passage of those `d` ms alone made of the state before the
selection, except that `pdfFile` is the newly selected file.  So `pdfData` is
what it was before the selection (a document loaded before stays displayed;
with none loaded, `pdfData` stays null), no clearing is added, and the message
is the earlier one, or blank when an earlier clearing fell due meanwhile.  In
any state at all a failing read changes nothing but the list of pending
reads. -/
theorem read_failure_runs_no_code (w : World) (file : File) (d : Nat)
    (hm : w.mounted = true) (hf : file.type = "application/pdf") :
    readError w.reads.length (advance d (handleFileUpload (some file) w))
      = { advance d w with pdfFile := some file } ∧
    (readError w.reads.length (advance d (handleFileUpload (some file) w))).pdfData
      = w.pdfData ∧
    (readError w.reads.length (advance d (handleFileUpload (some file) w))).message
      = (advance d w).message ∧
    (readError w.reads.length (advance d (handleFileUpload (some file) w))).timers
      = (advance d w).timers ∧
    (readError w.reads.length (advance d (handleFileUpload (some file) w))).pdfFile
      = some file ∧
    (∀ (v : World) (i : Nat), readError i v = { v with reads := (readError i v).reads }) := by
  have h1 := handleFileUpload_valid_eq w file hm hf
  have hm1 : (handleFileUpload (some file) w).mounted = true := by rw [h1]; exact hm
  have hA := advance_eq d (handleFileUpload (some file) w) hm1
  have hB := advance_eq d w hm
  have hg : (advance d (handleFileUpload (some file) w)).reads.get? w.reads.length
      = some file := by
    rw [hA, h1]; simp
  have he : (w.reads ++ [file]).eraseIdx w.reads.length = w.reads := by
    rw [List.eraseIdx_append_of_length_le (le_refl _)]
    simp
  have h3 : readError w.reads.length (advance d (handleFileUpload (some file) w))
      = { advance d w with pdfFile := some file } := by
    rw [readError_at _ _ _ hg, hA, hB, h1]
    simp [he]
  have hp : (advance d w).pdfData = w.pdfData := by rw [hB]
  refine ⟨h3, ?_, ?_, ?_, ?_, ?_⟩
  · rw [h3]; exact hp
  · rw [h3]
  · rw [h3]
  · rw [h3]
  · intro v i
    unfold readError
    split <;> rfl

/-- Witness of C7 (amended): the read of a second PDF fails 3000 ms after its
selection, while a document is displayed. -/
theorem read_failure_runs_no_code_witness :
    (readError (run [.selectFile (some samplePdf), .readLoad 0]).reads.length
      (advance 3000 (handleFileUpload (some otherPdf)
        (run [.selectFile (some samplePdf), .readLoad 0])))).pdfData
      = (run [.selectFile (some samplePdf), .readLoad 0]).pdfData ∧
    (readError (run [.selectFile (some samplePdf), .readLoad 0]).reads.length
      (advance 3000 (handleFileUpload (some otherPdf)
        (run [.selectFile (some samplePdf), .readLoad 0])))).message
      = (advance 3000 (run [.selectFile (some samplePdf), .readLoad 0])).message :=
  ⟨(read_failure_runs_no_code (run [.selectFile (some samplePdf), .readLoad 0]) otherPdf 3000
      (by decide) (by decide)).2.1,
   (read_failure_runs_no_code (run [.selectFile (some samplePdf), .readLoad 0]) otherPdf 3000
      (by decide) (by decide)).2.2.1⟩

set_option maxRecDepth 100000 in
/-- C8, on the code: the centered layer shows the watermark text, but the
`background` of the tiled layer is the same string for every watermark text
(its `+ watermarkText +` is inside the string literal), so an edit of the
watermark leaves the tiled layer as it was, and for the default text
"CONFIDENTIAL" the background does not contain the text. -/
theorem tiled_background_ignores_watermark :
    (∀ t1 t2 : String, antiScreenshotBackground t1 = antiScreenshotBackground t2) ∧
    (overlay (run [.selectFile (some samplePdf), .readLoad 0])).map Overlay.watermarkLayer
      = some "CONFIDENTIAL" ∧
    (overlay (run [.selectFile (some samplePdf), .readLoad 0, .editWatermark "SECRET"])).map
      Overlay.watermarkLayer = some "SECRET" ∧
    (overlay (run [.selectFile (some samplePdf), .readLoad 0, .editWatermark "SECRET"])).map
      Overlay.antiScreenshotBackground
      = (overlay (run [.selectFile (some samplePdf), .readLoad 0])).map
          Overlay.antiScreenshotBackground ∧
    ¬ ("CONFIDENTIAL".data <:+: (antiScreenshotBackground "CONFIDENTIAL").data) := by
  refine ⟨fun _ _ => rfl, by decide, by decide, rfl, ?_⟩
  decide

/-- C9: `toggleFullscreen` is a closure of the component whose only call site
is the `onClick` of the fullscreen button.  For every state with no document
loaded (`pdfData` null) that button, when rendered, is rendered disabled, so
invoking the toggle has no effect: a click runs no handler, no field of the
session or of the environment changes (the message included), and no
fullscreen request and no fullscreen exit is issued, by the click or by any
other event. -/
theorem toggle_without_document_has_no_effect (w : World) (e : Event)
    (h : w.pdfData = none) :
    (∀ b : Button, fullscreenButton w = some b → b.disabled = true) ∧
    (w.showControls = true → (fullscreenButton w).map Button.disabled = some true) ∧
    clickFullscreen w = w ∧
    step w Event.clickFullscreen = w ∧
    (step w e).fullscreenRequests ≤ w.fullscreenRequests ∧
    (step w e).fullscreenExits = w.fullscreenExits := by
  obtain ⟨hb, hc⟩ := clickFullscreen_without_document w h
  obtain ⟨n1, n2⟩ := handle_noFullscreenCommand w e h
  refine ⟨hb, ?_, hc, ?_, n1, n2⟩
  · intro hs
    simp [fullscreenButton, hs, h, truthy]
  · show handle w Event.clickFullscreen = w
    simp only [handle, hc]; split <;> rfl

/-- Witness of C9: the freshly mounted viewer, whose button is rendered. -/
theorem toggle_without_document_has_no_effect_witness :
    mount.pdfData = none ∧
    (fullscreenButton mount).map Button.disabled = some true ∧
    step mount Event.clickFullscreen = mount :=
  ⟨rfl,
   (toggle_without_document_has_no_effect mount Event.clickFullscreen rfl).2.1 rfl,
   (toggle_without_document_has_no_effect mount Event.clickFullscreen rfl).2.2.2.1⟩

/-- C10: in every reachable state of the mounted viewer, after a
`fullscreenchange` notification `isFullscreen` equals whether the environment
has a fullscreen element (for any world with the listener registered, whatever
the flag was before); `toggleFullscreen` never writes the flag; and after
entering fullscreen through the button, an exit by the environment followed by
its notification makes `isFullscreen` false without a further click. -/
theorem fullscreen_flag_mirrors_environment (events : List Event) (w : World)
    (hm : (run events).mounted = true) :
    (step (run events) Event.fullscreenchange).isFullscreen
      = (run events).fullscreenElement ∧
    (w.mounted = true → w.fullscreenchange ≠ [] →
      (dispatchFullscreenchange w).isFullscreen = w.fullscreenElement) ∧
    (toggleFullscreen w).isFullscreen = w.isFullscreen ∧
    (run [.selectFile (some samplePdf), .readLoad 0, .clickFullscreen, .fullscreenGranted]
      ).isFullscreen = false ∧
    (run [.selectFile (some samplePdf), .readLoad 0, .clickFullscreen, .fullscreenGranted,
      .fullscreenchange]).isFullscreen = true ∧
    (run [.selectFile (some samplePdf), .readLoad 0, .clickFullscreen, .fullscreenGranted,
      .fullscreenchange, .fullscreenLeft, .fullscreenchange]).isFullscreen = false := by
  have hgen : ∀ v : World, v.mounted = true → v.fullscreenchange ≠ [] →
      (dispatchFullscreenchange v).isFullscreen = v.fullscreenElement := by
    intro v hv hl
    unfold dispatchFullscreenchange
    rw [foldl_fullscreenChange_eq _ _ hv]
    cases hfs : v.fullscreenchange with
    | nil => exact absurd hfs hl
    | cons a l => rfl
  refine ⟨?_, hgen w, ?_, by decide, by decide, by decide⟩
  · obtain ⟨hfs, _⟩ := run_inv events
    exact hgen _ hm (hfs hm)
  · unfold toggleFullscreen; split <;> rfl

/-- Witness of C10: a notification arrives while the environment is fullscreen. -/
theorem fullscreen_flag_mirrors_environment_witness :
    (step (run [.selectFile (some samplePdf), .readLoad 0, .clickFullscreen,
      .fullscreenGranted]) Event.fullscreenchange).isFullscreen = true :=
  (fullscreen_flag_mirrors_environment
    [.selectFile (some samplePdf), .readLoad 0, .clickFullscreen, .fullscreenGranted]
    mount (by decide)).1

end SecurePDFViewer
